import Mathlib

/-!
Verification development for the NanoQuant model-compression core:
the differentiable quantization calibration engine (src/custom_quant.py),
the sparsity pruning operator (src/pruning.py) and the generic train/eval
loop (src/training.py).  Tensors are embedded as rational matrices and
vectors; the torch elementwise operations become List.map, and in-place
weight mutation becomes explicit state passing with a recorded write trace.
-/

unseal Rat.add Rat.mul Rat.inv Rat.sub Rat.ofScientific

namespace NanoQuant

/-! ### Rounding and clamping primitives (torch.round, torch.clamp) -/

/-- Round half to even, the rounding rule of both torch.round and Python
round(): nearest integer, ties going to the even neighbour. -/
def rndEven (x : ℚ) : ℤ :=
  if x - (⌊x⌋ : ℚ) < 1/2 then ⌊x⌋
  else if 1/2 < x - (⌊x⌋ : ℚ) then ⌊x⌋ + 1
  else if ⌊x⌋ % 2 = 0 then ⌊x⌋ else ⌊x⌋ + 1

/-- Clamp x into [lo, hi] as torch.clamp does: first the lower bound, then
the upper bound. -/
def clampQ (x lo hi : ℚ) : ℚ := min hi (max lo x)

/-! ### Fake quantization (custom_quantize_layer, src/custom_quant.py)

The source computes, for a layer weight tensor `weight`, a learnable scale
`s` and a level count `num_levels` (default 256):

  qmin = -(num_levels // 2)
  qmax = num_levels // 2 - 1
  quantized_weights = torch.clamp(torch.round(weight / s), qmin, qmax) * s
-/

/-- Lower clamp bound of the quantization grid: -(num_levels // 2), with
Python integer floor division. -/
def qmin (L : ℕ) : ℤ := -((L : ℤ) / 2)

/-- Upper clamp bound of the quantization grid: num_levels // 2 - 1. -/
def qmax (L : ℕ) : ℤ := (L : ℤ) / 2 - 1

/-- Fake-quantize one weight entry: clamp(round(w / s), qmin, qmax) * s. -/
def fakeQuant (L : ℕ) (s w : ℚ) : ℚ :=
  clampQ ((rndEven (w / s) : ℤ) : ℚ) ((qmin L : ℤ) : ℚ) ((qmax L : ℤ) : ℚ) * s

/-- Elementwise fake quantization of a weight matrix. -/
def quantizeMatrix (L : ℕ) (s : ℚ) (W : List (List ℚ)) : List (List ℚ) :=
  W.map (fun row => row.map (fakeQuant L s))

/-- Largest absolute entry of a weight matrix: weight.abs().max().
For the empty tensor this gives 0 (torch would error there instead; all
claims concern nonempty tensors). -/
def maxAbs (W : List (List ℚ)) : ℚ :=
  (W.map (fun row => row.foldl (fun a w => max a |w|) 0)).foldl max 0

/-- Initial scale of the calibration loop:
s = weight.abs().max() / (num_levels / 2 - 1), where num_levels / 2 is
Python float (true) division.  There is no epsilon substitution in the
source: an all-zero weight tensor yields scale 0. -/
def scaleInit (L : ℕ) (W : List (List ℚ)) : ℚ :=
  maxAbs W / ((L : ℚ) / 2 - 1)

/-! ### The calibration loop state machine

Per epoch the source does, in order (only the weight-mutating and
scale-mutating steps are relevant to the claims; the KL-loss computation
reads tensors but writes none):

  quantized_weights = torch.clamp(torch.round(weight / s), qmin, qmax) * s
  original_weight   = layer.weight.data.clone()
  layer.weight.data.copy_(quantized_weights)        -- write 1 of the epoch
  ... full_output (no_grad), quantized_output, KL loss, backward ...
  optimizer.step()                                  -- may change s
  layer.weight.data.copy_(original_weight)          -- write 2 of the epoch

and after the loop:

  final_quantized_weights = torch.clamp(torch.round(weight / s), qmin, qmax) * s
  layer.weight.data.copy_(final_quantized_weights)  -- final write

`weight` is the clone taken once at entry.  The effect of optimizer.step()
on the scale is modelled by an arbitrary update function, one per epoch. -/

/-- A linear layer: weight matrix and bias vector. -/
structure Layer where
  weight : List (List ℚ)
  bias : List ℚ
deriving DecidableEq

/-- Calibration state: the borrowed layer, the current scale, and the trace
of values written into layer.weight.data by copy_, in order. -/
structure CalibState where
  layer : Layer
  s : ℚ
  writes : List (List (List ℚ))
deriving DecidableEq

/-- One in-place layer.weight.data.copy_(v), recorded in the trace. -/
def writeWeight (st : CalibState) (v : List (List ℚ)) : CalibState :=
  { st with layer := { st.layer with weight := v }, writes := st.writes ++ [v] }

/-- One epoch of the calibration loop.  W0 is the weight clone taken at
entry; step models the effect of optimizer.step() on the scale. -/
def calibEpoch (L : ℕ) (W0 : List (List ℚ)) (step : ℚ → ℚ) (st : CalibState) : CalibState :=
  let qw := quantizeMatrix L st.s W0
  let orig := st.layer.weight
  let st1 := writeWeight st qw
  let st2 := { st1 with s := step st1.s }
  writeWeight st2 orig

/-- The epoch loop of custom_quantize_layer, before the final write-back. -/
def calibLoop (L : ℕ) (epochs : ℕ) (step : ℕ → ℚ → ℚ) (layer : Layer) : CalibState :=
  (List.range epochs).foldl (fun st e => calibEpoch L layer.weight (step e) st)
    { layer := layer, s := scaleInit L layer.weight, writes := [] }

/-- custom_quantize_layer: set the starting scale, run the epoch loop, then
overwrite the layer weight with the final fake-quantized values.  The
returned state carries the layer and the learned scale. -/
def custom_quantize_layer (L : ℕ) (epochs : ℕ) (step : ℕ → ℚ → ℚ) (layer : Layer) : CalibState :=
  let st := calibLoop L epochs step layer
  writeWeight st (quantizeMatrix L st.s layer.weight)

/-! ### Autograd of the fake-quantization operator

The source builds quantized_weights from plain torch ops with no custom
backward and no detach trick, so its gradient with respect to the input
tensor is the chain of the library backward rules:
round has derivative 0 everywhere, clamp passes the gradient inside the
bounds, division by s contributes 1/s and the final multiplication
contributes s. -/

/-- Backward rule of torch.round: the derivative is 0 everywhere. -/
def roundGrad (_ : ℚ) : ℚ := 0

/-- Backward rule of torch.clamp at input value x: 1 inside [lo, hi], else 0. -/
def clampGrad (x lo hi : ℚ) : ℚ := if lo ≤ x ∧ x ≤ hi then 1 else 0

/-- Gradient of w ↦ clamp(round(w / s), qmin, qmax) * s with respect to w,
composed from the torch backward rules by the chain rule. -/
def fakeQuantGradW (L : ℕ) (s w : ℚ) : ℚ :=
  s * clampGrad ((rndEven (w / s) : ℤ) : ℚ) ((qmin L : ℤ) : ℚ) ((qmax L : ℤ) : ℚ)
    * roundGrad (w / s) * (1 / s)

/-! ### Sparsity pruning (src/pruning.py)

apply_sparse_pruning(module, amount=0.3, method='l1_unstructured') raises
ValueError when the module has no weight attribute, dispatches on the
method string (l1_unstructured / random_unstructured via
torch.nn.utils.prune) and raises ValueError for any other method.
remove_pruning folds the mask into the dense weight (errors caught and
logged).  prune_model applies both to every module whose hierarchical name
contains one of the target substrings and which has a weight attribute. -/

/-- A module as seen by the pruning operators: a hierarchical name and an
optional flattened weight tensor (none models a missing weight attribute). -/
structure PModule where
  name : String
  weight : Option (List ℚ)
deriving DecidableEq

/-- Number of entries torch.nn.utils.prune zeroes for a float amount:
int(round(amount * tensor_size)) with Python half-to-even round. -/
def nparamsToPrune (amount : ℚ) (n : ℕ) : ℕ := (rndEven (amount * (n : ℚ))).toNat

/-- Entries paired with their flat indices. -/
def indexed (w : List ℚ) : List (ℚ × ℕ) := w.zip (List.range w.length)

/-- Insert into a list sorted by increasing magnitude, ties by index. -/
def insertByAbs (p : ℚ × ℕ) : List (ℚ × ℕ) → List (ℚ × ℕ)
  | [] => [p]
  | q :: qs =>
    if |p.1| < |q.1| ∨ (|p.1| = |q.1| ∧ p.2 ≤ q.2) then p :: q :: qs
    else q :: insertByAbs p qs

/-- Sort by increasing magnitude, ties by index. -/
def sortByAbs (l : List (ℚ × ℕ)) : List (ℚ × ℕ) := l.foldr insertByAbs []

/-- Indices of the k smallest-magnitude entries
(torch.topk(|w|, k, largest=False) in prune.l1_unstructured). -/
def pruneIdx (w : List ℚ) (k : ℕ) : List ℕ :=
  ((sortByAbs (indexed w)).take k).map Prod.snd

/-- prune.l1_unstructured followed by prune.remove: zero the
lowest-amount-fraction of entries by absolute magnitude, mask folded. -/
def l1Unstructured (w : List ℚ) (amount : ℚ) : List ℚ :=
  let idx := pruneIdx w (nparamsToPrune amount w.length)
  (indexed w).map (fun p => if p.2 ∈ idx then 0 else p.1)

/-- prune.random_unstructured: zero k entries chosen by the torch RNG; the
RNG draw order is passed in explicitly as rng. -/
def randomUnstructured (rng : List ℕ) (w : List ℚ) (amount : ℚ) : List ℚ :=
  let idx := rng.take (nparamsToPrune amount w.length)
  (indexed w).map (fun p => if p.2 ∈ idx then 0 else p.1)

/-- apply_sparse_pruning from src/pruning.py: ValueError when the module
lacks a weight attribute; dispatch on the method tag; ValueError for an
unsupported method. -/
def apply_sparse_pruning (rng : List ℕ) (m : PModule) (amount : ℚ) (method : String) :
    Except String PModule :=
  match m.weight with
  | none => .error "The module does not have a weight attribute and cannot be pruned."
  | some w =>
    if method = "l1_unstructured" then
      .ok { m with weight := some (l1Unstructured w amount) }
    else if method = "random_unstructured" then
      .ok { m with weight := some (randomUnstructured rng w amount) }
    else
      .error ("Pruning method " ++ method ++ " not supported.")

/-- remove_pruning: prune.remove folds the mask into the dense weight.  In
this embedding apply_sparse_pruning already yields the folded values, so
mask removal leaves the weight values unchanged (the try/except in the
source only concerns torch mask bookkeeping). -/
def remove_pruning (m : PModule) : PModule := m

/-- List-of-characters match at the head. -/
def leadsOf : List Char → List Char → Bool
  | [], _ => true
  | _ :: _, [] => false
  | a :: as, b :: bs => a = b && leadsOf as bs

/-- Substring containment, Python `needle in hay`. -/
def occursIn (needle hay : List Char) : Bool :=
  match hay with
  | [] => needle.isEmpty
  | _ :: t => leadsOf needle hay || occursIn needle t

/-- Does the module match the target selection of prune_model: its name
contains one of the target substrings and it has a weight attribute. -/
def targeted (targets : List String) (m : PModule) : Bool :=
  targets.any (fun t => occursIn t.toList m.name.toList) && m.weight.isSome

/-- prune_model from src/pruning.py: visit every named module in order;
those whose name contains a target substring and which have a weight
attribute are pruned by apply_sparse_pruning at the given amount and
finalized by remove_pruning; a raised error propagates. -/
def prune_model (rng : List ℕ) (model : List PModule) (targets : List String)
    (amount : ℚ) (method : String) : Except String (List PModule) :=
  match model with
  | [] => .ok []
  | m :: rest =>
    if targeted targets m then
      match apply_sparse_pruning rng m amount method with
      | .error e => .error e
      | .ok m' =>
        match prune_model rng rest targets amount method with
        | .error e => .error e
        | .ok rest' => .ok (remove_pruning m' :: rest')
    else
      match prune_model rng rest targets amount method with
      | .error e => .error e
      | .ok rest' => .ok (m :: rest')

/-- The per-module effect of prune_model with the l1_unstructured method. -/
def l1PruneModule (amount : ℚ) (targets : List String) (m : PModule) : PModule :=
  if targeted targets m then
    { m with weight := some (l1Unstructured (m.weight.getD []) amount) }
  else m

/-- Entries of all targeted modules pooled as (module index, entry index,
value) triples. -/
def pooledEntries (model : List PModule) (targets : List String) : List (ℚ × ℕ × ℕ) :=
  ((model.zip (List.range model.length)).map (fun mi =>
    if targeted targets mi.1 then
      (indexed (mi.1.weight.getD [])).map (fun p => (p.1, mi.2, p.2))
    else [])).flatten

/-- Insert into a list of pooled triples sorted by increasing magnitude,
ties by module index then entry index. -/
def insertByAbs3 (p : ℚ × ℕ × ℕ) : List (ℚ × ℕ × ℕ) → List (ℚ × ℕ × ℕ)
  | [] => [p]
  | q :: qs =>
    if |p.1| < |q.1| ∨ (|p.1| = |q.1| ∧ (p.2.1 < q.2.1 ∨ (p.2.1 = q.2.1 ∧ p.2.2 ≤ q.2.2))) then
      p :: q :: qs
    else q :: insertByAbs3 p qs

/-- Modelled from the spec: model-wide pruning with a global ranking —
magnitudes pooled and thresholded across all targeted tensors together, so
the pruned fraction of amount is taken of the pooled population, not of
each tensor separately. -/
def prune_model_global (model : List PModule) (targets : List String) (amount : ℚ) :
    List PModule :=
  let pooled := pooledEntries model targets
  let k := nparamsToPrune amount pooled.length
  let chosen := ((pooled.foldr insertByAbs3 []).take k).map Prod.snd
  (model.zip (List.range model.length)).map (fun mi =>
    match mi.1.weight with
    | none => mi.1
    | some w =>
      if targeted targets mi.1 then
        { mi.1 with weight := some ((indexed w).map (fun p =>
            if (mi.2, p.2) ∈ chosen then 0 else p.1)) }
      else mi.1)

/-! ### Generic evaluation loop (evaluate_model, src/training.py)

Per batch (under torch.no_grad):
  inputs  = non-label fields, targets = batch['label']
  output  = model(**inputs); logits = output['logits'] if dict else output
  if loss_fn is not None: total_loss += loss_fn(...).item()
  preds = torch.argmax(logits, dim=-1)
  total_correct += (preds == targets).sum().item()
  total_samples += targets.size(0)
  num_batches += 1
then
  avg_loss = total_loss / num_batches if loss_fn is not None else None
  accuracy = total_correct / total_samples if total_samples > 0 else 0.0
The avg_loss division has no zero guard: with a loss function supplied and
an empty batch source, Python raises ZeroDivisionError. -/

/-- One evaluation batch: per-example logits rows and the label field. -/
structure EvalBatch where
  logits : List (List ℚ)
  labels : List ℤ

/-- Index of the first maximal entry, torch.argmax over the last dimension
(0 for an empty row, on which torch would error instead). -/
def argmaxIdx (row : List ℚ) : ℤ :=
  match row with
  | [] => 0
  | x :: xs =>
    (((indexed (x :: xs)).foldl (fun best p => if best.1 < p.1 then p else best) (x, 0)).2 : ℕ)

/-- Predictions of one batch: argmax of each logits row. -/
def batchPreds (b : EvalBatch) : List ℤ := b.logits.map argmaxIdx

/-- Correct-prediction count of one batch: (preds == targets).sum().item(). -/
def batchCorrect (b : EvalBatch) : ℕ :=
  ((batchPreds b).zip b.labels).countP (fun p => p.1 == p.2)

/-- Accumulator of the evaluation loop: total_loss, total_correct,
total_samples, num_batches. -/
structure EvalAcc where
  totalLoss : ℚ
  correct : ℕ
  samples : ℕ
  numBatches : ℕ
deriving DecidableEq

/-- One iteration of the evaluation loop body. -/
def evalStep (lossFn : Option (EvalBatch → ℚ)) (a : EvalAcc) (b : EvalBatch) : EvalAcc :=
  { totalLoss := match lossFn with | some f => a.totalLoss + f b | none => a.totalLoss
    correct := a.correct + batchCorrect b
    samples := a.samples + b.labels.length
    numBatches := a.numBatches + 1 }

/-- evaluate_model from src/training.py.  The abstract lossFn models
loss_fn(logits.view(-1, logits.shape[-1]), targets.view(-1)).item() on one
batch.  Returns (average_loss_or_none, accuracy), or the uncaught Python
ZeroDivisionError. -/
def evaluate_model (batches : List EvalBatch) (lossFn : Option (EvalBatch → ℚ)) :
    Except String (Option ℚ × ℚ) :=
  let a := batches.foldl (evalStep lossFn) ⟨0, 0, 0, 0⟩
  let accuracy : ℚ := if 0 < a.samples then (a.correct : ℚ) / (a.samples : ℚ) else 0
  match lossFn with
  | some _ =>
    if a.numBatches = 0 then .error "ZeroDivisionError: float division by zero"
    else .ok (some (a.totalLoss / (a.numBatches : ℚ)), accuracy)
  | none => .ok (none, accuracy)

/-- Decidable equality for Except results, used to evaluate the embedded
operations on concrete inputs. -/
instance {ε α : Type} [DecidableEq ε] [DecidableEq α] : DecidableEq (Except ε α) := fun a b =>
  match a, b with
  | .error e, .error f =>
    if h : e = f then isTrue (h ▸ rfl)
    else isFalse fun hc => h (by injection hc)
  | .error _, .ok _ => isFalse fun hc => Except.noConfusion hc
  | .ok _, .error _ => isFalse fun hc => Except.noConfusion hc
  | .ok x, .ok y =>
    if h : x = y then isTrue (h ▸ rfl)
    else isFalse fun hc => h (by injection hc)

/-- Modelled from the spec: the fake-quantized tensor as the spec contract
writes it, clamp(round(W / s), -L/2, L/2 - 1) * s, with -L/2 and L/2 - 1
read as exact (rational) halving of the level count. -/
def specQuantFormula (L : ℕ) (s : ℚ) (W : List (List ℚ)) : List (List ℚ) :=
  W.map (fun row => row.map (fun w =>
    min ((L : ℚ) / 2 - 1) (max (-((L : ℚ) / 2)) ((rndEven (w / s) : ℤ) : ℚ)) * s))

/-- A concrete loss function for counterexamples. -/
def zeroLoss : EvalBatch → ℚ := fun _ => 0

/-- Concrete two-module model used to separate per-tensor from global
pruning. -/
def cxModel : List PModule := [⟨"fc1", some [1, 2]⟩, ⟨"fc2", some [3, 4]⟩]

/-! ## Helper lemmas -/

theorem rndEven_sub_abs_le (x : ℚ) : |((rndEven x : ℤ) : ℚ) - x| ≤ 1/2 := by
  have h0 : (0 : ℚ) ≤ x - (⌊x⌋ : ℚ) := sub_nonneg.mpr (Int.floor_le x)
  have h1 : x - (⌊x⌋ : ℚ) < 1 := by
    have := Int.lt_floor_add_one x
    linarith
  unfold rndEven
  by_cases hlt : x - (⌊x⌋ : ℚ) < 1/2
  · rw [if_pos hlt, abs_sub_comm, abs_of_nonneg h0]
    linarith
  · rw [if_neg hlt]
    by_cases hgt : 1/2 < x - (⌊x⌋ : ℚ)
    · rw [if_pos hgt]
      push_cast
      rw [abs_of_nonneg (by linarith)]
      linarith
    · rw [if_neg hgt]
      have heq : x - (⌊x⌋ : ℚ) = 1/2 := le_antisymm (not_lt.mp hgt) (not_lt.mp hlt)
      by_cases hev : ⌊x⌋ % 2 = 0
      · rw [if_pos hev, abs_sub_comm, abs_of_nonneg h0, heq]
      · rw [if_neg hev]
        push_cast
        rw [abs_of_nonneg (by linarith)]
        linarith

theorem clampQ_eq_self {x lo hi : ℚ} (h1 : lo ≤ x) (h2 : x ≤ hi) : clampQ x lo hi = x := by
  rw [clampQ, max_eq_right h1, min_eq_right h2]

theorem qmin_cast_of_even {L : ℕ} (hL : 2 ∣ L) : ((qmin L : ℤ) : ℚ) = -((L : ℚ) / 2) := by
  obtain ⟨m, rfl⟩ := hL
  rw [qmin]
  push_cast
  rw [Int.mul_ediv_cancel_left _ (by norm_num)]
  push_cast
  ring

theorem qmax_cast_of_even {L : ℕ} (hL : 2 ∣ L) : ((qmax L : ℤ) : ℚ) = (L : ℚ) / 2 - 1 := by
  obtain ⟨m, rfl⟩ := hL
  rw [qmax]
  push_cast
  rw [Int.mul_ediv_cancel_left _ (by norm_num)]
  push_cast
  ring

theorem calibEpoch_layer (L : ℕ) (W0 : List (List ℚ)) (step : ℚ → ℚ) (st : CalibState) :
    (calibEpoch L W0 step st).layer = st.layer := rfl

theorem calibEpoch_writes_length (L : ℕ) (W0 : List (List ℚ)) (step : ℚ → ℚ)
    (st : CalibState) :
    (calibEpoch L W0 step st).writes.length = st.writes.length + 2 := by
  simp [calibEpoch, writeWeight]

theorem calibFold_layer (L : ℕ) (W0 : List (List ℚ)) (step : ℕ → ℚ → ℚ) :
    ∀ (l : List ℕ) (st : CalibState),
      (l.foldl (fun st e => calibEpoch L W0 (step e) st) st).layer = st.layer := by
  intro l
  induction l with
  | nil => intro st; rfl
  | cons e t ih =>
    intro st
    rw [List.foldl_cons, ih, calibEpoch_layer]

theorem calibFold_writes_length (L : ℕ) (W0 : List (List ℚ)) (step : ℕ → ℚ → ℚ) :
    ∀ (l : List ℕ) (st : CalibState),
      (l.foldl (fun st e => calibEpoch L W0 (step e) st) st).writes.length =
        st.writes.length + 2 * l.length := by
  intro l
  induction l with
  | nil => intro st; simp
  | cons e t ih =>
    intro st
    rw [List.foldl_cons, ih, calibEpoch_writes_length]
    simp
    ring

theorem calibLoop_layer (L : ℕ) (epochs : ℕ) (step : ℕ → ℚ → ℚ) (layer : Layer) :
    (calibLoop L epochs step layer).layer = layer := by
  rw [calibLoop, calibFold_layer]

/-! ## Claim C1: the baked fake-quantized weights -/

/-- Claim C1, counterexample to the claim as stated: for the odd level count
L = 3 the source clamps with the floor-division bounds qmin = -(3 // 2) = -1
and qmax = 3 // 2 - 1 = 0, while the claim formula clamps with -3/2 and 1/2;
at weight -10 and learned scale 1 calibration bakes -1 but the claim formula
yields -3/2. -/
theorem C1_counterexample :
    (custom_quantize_layer 3 1 (fun _ _ => 1) ⟨[[-10]], []⟩).layer.weight = [[-1]] ∧
    specQuantFormula 3 (calibLoop 3 1 (fun _ _ => 1) ⟨[[-10]], []⟩).s [[-10]] = [[-3/2]] ∧
    ([[-1]] : List (List ℚ)) ≠ [[-3/2]] := by
  refine ⟨by decide, by decide, by decide⟩

/-- Claim C1 (corrected: the clamp bounds are the floor divisions
-(L // 2) and L // 2 - 1, which agree with the claimed -L/2 and L/2 - 1
exactly when L is even, as in the default L = 256): for every layer, every
even level count L, every epoch count and every scale trajectory, when the
learned scale s is positive the weights custom_quantize_layer bakes into
the layer equal clamp(round(W / s), -L/2, L/2 - 1) * s elementwise, where W
is the weight tensor at calibration entry. -/
theorem C1_quantize_formula (L epochs : ℕ) (step : ℕ → ℚ → ℚ) (layer : Layer)
    (hL : 2 ∣ L) (_hs : 0 < (calibLoop L epochs step layer).s) :
    (custom_quantize_layer L epochs step layer).layer.weight =
      specQuantFormula L (calibLoop L epochs step layer).s layer.weight := by
  have hweight : (custom_quantize_layer L epochs step layer).layer.weight =
      quantizeMatrix L (calibLoop L epochs step layer).s layer.weight := rfl
  rw [hweight, quantizeMatrix, specQuantFormula]
  have hfun : ∀ w : ℚ, fakeQuant L (calibLoop L epochs step layer).s w =
      min ((L : ℚ) / 2 - 1)
        (max (-((L : ℚ) / 2))
          ((rndEven (w / (calibLoop L epochs step layer).s) : ℤ) : ℚ)) *
        (calibLoop L epochs step layer).s := by
    intro w
    rw [fakeQuant, clampQ, qmin_cast_of_even hL, qmax_cast_of_even hL]
  exact List.map_congr_left (fun row _ => List.map_congr_left (fun w _ => hfun w))

/-- Claim C1 witness: a concrete even-level instance with positive scale. -/
theorem C1_quantize_formula_witness :
    (2 ∣ 256) ∧ 0 < (calibLoop 256 0 (fun _ s => s) ⟨[[1]], []⟩).s ∧
    (custom_quantize_layer 256 0 (fun _ s => s) ⟨[[1]], []⟩).layer.weight =
      specQuantFormula 256 (calibLoop 256 0 (fun _ s => s) ⟨[[1]], []⟩).s [[1]] :=
  ⟨by decide, by decide,
    C1_quantize_formula 256 0 (fun _ s => s) ⟨[[1]], []⟩ (by decide) (by decide)⟩

/-! ## Claim C3: gradient of the fake-quantization operator -/

/-- Claim C3, counterexample to the claim as stated: at w = 1/5, s = 1,
L = 256 the pre-clamp value round(1/5) = 0 lies strictly inside
[-128, 127], so the claim requires gradient exactly 1, but the source has
no straight-through estimator — its gradient chain contains the zero
derivative of torch.round, so the gradient is 0. -/
theorem C3_counterexample :
    ((qmin 256 : ℤ) : ℚ) < ((rndEven ((1/5) / 1) : ℤ) : ℚ) ∧
    ((rndEven ((1/5) / 1) : ℤ) : ℚ) < ((qmax 256 : ℤ) : ℚ) ∧
    fakeQuantGradW 256 1 (1/5) = 0 ∧ fakeQuantGradW 256 1 (1/5) ≠ 1 := by
  refine ⟨by decide, by decide, by decide, by decide⟩

/-- Claim C3 (corrected): the gradient of the fake-quantization operator
with respect to its input tensor is exactly 0 at every coordinate, inside
and outside the clamp range alike — the source composes plain torch ops and
torch.round has derivative 0, with no straight-through override. -/
theorem C3_grad_zero (L : ℕ) (s w : ℚ) : fakeQuantGradW L s w = 0 := by
  simp [fakeQuantGradW, roundGrad]

/-! ## Claim C4: round-trip error bound -/

/-- Claim C4, counterexample to the claim as stated: at w = 1000, s = 1,
L = 256 the value saturates at qmax = 127 and the error 873 exceeds
s/2 = 1/2 — the bound fails for clamped coordinates. -/
theorem C4_counterexample :
    fakeQuant 256 1 1000 = 127 ∧ ¬ (|fakeQuant 256 1 1000 - 1000| ≤ 1/2) := by
  refine ⟨by decide, by decide⟩

/-- Claim C4 (corrected: restricted to the coordinates the claim's grid can
represent): for every scale s > 0 and every weight entry whose rounded
value round(w / s) lies inside [qmin, qmax], the fake-quantized output
differs from w by at most s/2. -/
theorem C4_roundtrip_bound (L : ℕ) (s w : ℚ) (hs : 0 < s)
    (hlo : ((qmin L : ℤ) : ℚ) ≤ ((rndEven (w / s) : ℤ) : ℚ))
    (hhi : ((rndEven (w / s) : ℤ) : ℚ) ≤ ((qmax L : ℤ) : ℚ)) :
    |fakeQuant L s w - w| ≤ s / 2 := by
  rw [fakeQuant, clampQ_eq_self hlo hhi]
  have h1 : ((rndEven (w / s) : ℤ) : ℚ) * s - w = (((rndEven (w / s) : ℤ) : ℚ) - w / s) * s := by
    field_simp
  rw [h1, abs_mul, abs_of_pos hs]
  have h2 := rndEven_sub_abs_le (w / s)
  calc |((rndEven (w / s) : ℤ) : ℚ) - w / s| * s ≤ (1/2) * s :=
        mul_le_mul_of_nonneg_right h2 hs.le
    _ = s / 2 := by ring

/-- Claim C4 witness: w = 1/3, s = 1, L = 256 lies inside the grid and the
reconstruction error 1/3 is within s/2. -/
theorem C4_roundtrip_bound_witness :
    (0 < (1 : ℚ)) ∧ ((qmin 256 : ℤ) : ℚ) ≤ ((rndEven ((1/3) / 1) : ℤ) : ℚ) ∧
    ((rndEven ((1/3) / 1) : ℤ) : ℚ) ≤ ((qmax 256 : ℤ) : ℚ) ∧
    |fakeQuant 256 1 (1/3) - 1/3| ≤ 1 / 2 :=
  ⟨by decide, by decide, by decide,
    C4_roundtrip_bound 256 1 (1/3) (by decide) (by decide) (by decide)⟩

/-! ## Claim C5: scale initialization on an all-zero weight tensor -/

theorem foldlMax_zero : ∀ (l : List ℚ), (∀ a ∈ l, a = 0) → l.foldl max 0 = 0 := by
  intro l
  induction l with
  | nil => intro _; rfl
  | cons a t ih =>
    intro h
    rw [List.foldl_cons, h a (List.mem_cons_self a t), max_self]
    exact ih (fun b hb => h b (List.mem_cons_of_mem a hb))

theorem foldlMaxAbs_zero : ∀ (row : List ℚ), (∀ w ∈ row, w = 0) →
    row.foldl (fun a w => max a |w|) 0 = 0 := by
  intro row
  induction row with
  | nil => intro _; rfl
  | cons w t ih =>
    intro h
    rw [List.foldl_cons, h w (List.mem_cons_self w t), abs_zero, max_self]
    exact ih (fun b hb => h b (List.mem_cons_of_mem w hb))

theorem maxAbs_of_all_zero (W : List (List ℚ)) (h : ∀ row ∈ W, ∀ w ∈ row, w = 0) :
    maxAbs W = 0 := by
  rw [maxAbs]
  apply foldlMax_zero
  intro a ha
  obtain ⟨row, hrow, rfl⟩ := List.mem_map.mp ha
  exact foldlMaxAbs_zero row (h row hrow)

/-- Claim C5, counterexample to the claim as stated: for the all-zero 2×2
weight tensor and the default 256 levels, the initial scale computed by
custom_quantize_layer is 0 — there is no positive epsilon substitution. -/
theorem C5_counterexample :
    scaleInit 256 [[0, 0], [0, 0]] = 0 ∧ ¬ (0 < scaleInit 256 [[0, 0], [0, 0]]) := by
  refine ⟨by decide, by decide⟩

/-- Claim C5 (corrected): the source computes the starting scale as
weight.abs().max() / (num_levels / 2 - 1) with no epsilon handling, so for
every entirely-zero weight tensor the initial scale is exactly 0; the
quantization step then divides by zero (torch evaluates 0/0 to NaN without
raising, producing NaN weights rather than an error). -/
theorem C5_scale_init_zero (L : ℕ) (W : List (List ℚ))
    (h : ∀ row ∈ W, ∀ w ∈ row, w = 0) : scaleInit L W = 0 := by
  rw [scaleInit, maxAbs_of_all_zero W h, zero_div]

/-- Claim C5 witness: the all-zero 1×1 tensor. -/
theorem C5_scale_init_zero_witness :
    (∀ row ∈ ([[0]] : List (List ℚ)), ∀ w ∈ row, w = 0) ∧ scaleInit 256 [[0]] = 0 :=
  ⟨by decide, C5_scale_init_zero 256 [[0]] (by decide)⟩

/-! ## Claim C7: calibration preserves shape, bias and call signature -/

/-- Claim C7 (confirmed): after scale calibration the layer's weight tensor
has the same shape as before (same row count, same row lengths), the bias
is unchanged, and only the numerical weight values differ — the final
write-back is an elementwise map over the entry weight tensor. -/
theorem C7_frame_preserved (L epochs : ℕ) (step : ℕ → ℚ → ℚ) (layer : Layer) :
    (custom_quantize_layer L epochs step layer).layer.bias = layer.bias ∧
    (custom_quantize_layer L epochs step layer).layer.weight.length =
      layer.weight.length ∧
    (custom_quantize_layer L epochs step layer).layer.weight.map List.length =
      layer.weight.map List.length := by
  have hb : (custom_quantize_layer L epochs step layer).layer.bias =
      (calibLoop L epochs step layer).layer.bias := rfl
  have hw : (custom_quantize_layer L epochs step layer).layer.weight =
      quantizeMatrix L (calibLoop L epochs step layer).s layer.weight := rfl
  refine ⟨?_, ?_, ?_⟩
  · rw [hb, calibLoop_layer]
  · rw [hw, quantizeMatrix, List.length_map]
  · rw [hw, quantizeMatrix, List.map_map]
    exact List.map_congr_left (fun row _ => List.length_map row _)

/-! ## Claim C10: mutation trace of the calibration loop -/

/-- Claim C10, counterexample to the claim as stated: with a single epoch,
calibration writes the layer's weight tensor three times (fake-quantized
values, restore of the original, final bake), not exactly once. -/
theorem C10_counterexample :
    (custom_quantize_layer 256 1 (fun _ _ => 1) ⟨[[1]], []⟩).writes.length = 3 ∧
    (3 : ℕ) ≠ 1 := by
  refine ⟨by decide, by decide⟩

/-- Claim C10 (corrected): the loop does not operate purely on a clone — it
writes the fake-quantized weights into the layer and restores the original
inside every epoch, so calibration mutates the weight tensor 2·epochs + 1
times in all; at every epoch boundary the weight equals the original, and
the final write installs the fake-quantized weights at the learned scale.
Atomicity on error does not hold: an exception between the two writes of an
epoch would leave the layer fake-quantized. -/
theorem C10_write_trace (L epochs : ℕ) (step : ℕ → ℚ → ℚ) (layer : Layer) :
    (calibLoop L epochs step layer).layer.weight = layer.weight ∧
    (custom_quantize_layer L epochs step layer).writes.length = 2 * epochs + 1 ∧
    (custom_quantize_layer L epochs step layer).layer.weight =
      quantizeMatrix L (calibLoop L epochs step layer).s layer.weight := by
  refine ⟨?_, ?_, rfl⟩
  · rw [calibLoop_layer]
  · have h1 : (custom_quantize_layer L epochs step layer).writes.length =
        (calibLoop L epochs step layer).writes.length + 1 := by
      simp [custom_quantize_layer, writeWeight]
    rw [h1, calibLoop, calibFold_writes_length]
    simp [List.length_range]

/-! ## Claim C2: model-wide pruning is per-tensor, not global -/

theorem prune_model_l1_ok (rng : List ℕ) (targets : List String) (amount : ℚ) :
    ∀ model : List PModule,
      prune_model rng model targets amount "l1_unstructured" =
        .ok (model.map (l1PruneModule amount targets)) := by
  intro model
  induction model with
  | nil => rfl
  | cons m rest ih =>
    rw [prune_model, ih]
    by_cases h : targeted targets m
    · have hw : ∃ w, m.weight = some w := by
        have h2 := ((Bool.and_eq_true _ _).mp h).2
        exact Option.isSome_iff_exists.mp h2
      obtain ⟨w, hw⟩ := hw
      rw [if_pos h, apply_sparse_pruning]
      rw [hw]
      simp only [if_pos rfl, List.map_cons]
      rw [l1PruneModule, if_pos h, hw]
      rfl
    · rw [if_neg h, List.map_cons, l1PruneModule, if_neg h]

/-- Claim C2, counterexample to the claim as stated: on a model with
targeted modules fc1 = [1, 2] and fc2 = [3, 4] at amount 1/2, prune_model
zeroes one entry per module (the per-module smallest), giving [0, 2] and
[0, 4]; global pooled ranking would zero the two globally smallest entries,
1 and 2, giving [0, 0] and leaving fc2 untouched.  The two disagree. -/
theorem C2_counterexample :
    prune_model [] cxModel ["fc"] (1/2) "l1_unstructured" =
      .ok [⟨"fc1", some [0, 2]⟩, ⟨"fc2", some [0, 4]⟩] ∧
    prune_model_global cxModel ["fc"] (1/2) =
      [⟨"fc1", some [0, 0]⟩, ⟨"fc2", some [3, 4]⟩] ∧
    ([⟨"fc1", some [0, 2]⟩, ⟨"fc2", some [0, 4]⟩] : List PModule) ≠
      [⟨"fc1", some [0, 0]⟩, ⟨"fc2", some [3, 4]⟩] := by
  refine ⟨by decide, by decide, by decide⟩

/-- Claim C2 (corrected): model-wide pruning never ranks magnitudes across
modules — each targeted module is pruned independently at fraction amount
of its own tensor, so the result at any module position depends only on
that module, never on the weights of the other targeted modules. -/
theorem C2_prune_independent (rng : List ℕ) (model₁ model₂ : List PModule)
    (targets : List String) (amount : ℚ) (i : ℕ)
    (h : model₁[i]? = model₂[i]?) :
    (prune_model rng model₁ targets amount "l1_unstructured").toOption.bind (fun l => l[i]?) =
    (prune_model rng model₂ targets amount "l1_unstructured").toOption.bind (fun l => l[i]?) := by
  rw [prune_model_l1_ok, prune_model_l1_ok]
  show ((model₁.map (l1PruneModule amount targets))[i]?) =
    ((model₂.map (l1PruneModule amount targets))[i]?)
  rw [List.getElem?_map, List.getElem?_map, h]

/-- Claim C2 witness: two models agreeing at position 1 but differing
elsewhere yield the same pruned module at position 1. -/
theorem C2_prune_independent_witness :
    ([⟨"a", some [5]⟩, ⟨"fc", some [1, 2]⟩] : List PModule)[1]? =
      ([⟨"b", some [7, 8]⟩, ⟨"fc", some [1, 2]⟩] : List PModule)[1]? ∧
    (prune_model [] [⟨"a", some [5]⟩, ⟨"fc", some [1, 2]⟩] ["fc"] (1/2)
        "l1_unstructured").toOption.bind (fun l => l[1]?) =
    (prune_model [] [⟨"b", some [7, 8]⟩, ⟨"fc", some [1, 2]⟩] ["fc"] (1/2)
        "l1_unstructured").toOption.bind (fun l => l[1]?) :=
  ⟨by decide, C2_prune_independent [] _ _ ["fc"] (1/2) 1 (by decide)⟩

/-! ## Claim C8: configuration errors of apply_sparse_pruning -/

/-- Claim C8 (confirmed): for every module lacking a weight attribute, and
for every method tag other than l1_unstructured and random_unstructured,
apply_sparse_pruning fails immediately with a descriptive (nonempty)
ValueError message and never silently returns the module unchanged. -/
theorem C8_config_error (rng : List ℕ) (m : PModule) (amount : ℚ) (method : String)
    (h : m.weight = none ∨ (method ≠ "l1_unstructured" ∧ method ≠ "random_unstructured")) :
    ∃ e, apply_sparse_pruning rng m amount method = .error e ∧ e ≠ "" := by
  rcases h with hw | ⟨h1, h2⟩
  · refine ⟨"The module does not have a weight attribute and cannot be pruned.", ?_, by decide⟩
    unfold apply_sparse_pruning
    rw [hw]
  · cases hwt : m.weight with
    | none =>
      refine ⟨"The module does not have a weight attribute and cannot be pruned.", ?_, by decide⟩
      unfold apply_sparse_pruning
      rw [hwt]
    | some w =>
      refine ⟨"Pruning method " ++ method ++ " not supported.", ?_, ?_⟩
      · unfold apply_sparse_pruning
        rw [hwt]
        simp only [if_neg h1, if_neg h2]
      · intro hc
        have hlen := congrArg String.length hc
        rw [String.length_append, String.length_append] at hlen
        have e1 : ("Pruning method " : String).length = 15 := rfl
        have e2 : (" not supported." : String).length = 15 := rfl
        have e3 : ("" : String).length = 0 := rfl
        omega

/-- Claim C8 witness: a weightless module under a supported method, and a
weighted module under an unsupported method, both fail with a message. -/
theorem C8_config_error_witness :
    ((⟨"fc", none⟩ : PModule).weight = none ∨
      (("l1_unstructured" : String) ≠ "l1_unstructured" ∧
        ("l1_unstructured" : String) ≠ "random_unstructured")) ∧
    ∃ e, apply_sparse_pruning [] ⟨"fc", none⟩ (3/10) "l1_unstructured" = .error e ∧ e ≠ "" :=
  ⟨Or.inl rfl, C8_config_error [] ⟨"fc", none⟩ (3/10) "l1_unstructured" (Or.inl rfl)⟩

/-! ## Claim C9: pruning at amount = 0 is the identity -/

theorem nparamsToPrune_zero (n : ℕ) : nparamsToPrune 0 n = 0 := by
  norm_num [nparamsToPrune, rndEven]

theorem indexed_map_cond_nil (w : List ℚ) :
    (indexed w).map (fun p => if p.2 ∈ ([] : List ℕ) then 0 else p.1) = w := by
  have hfun : (fun (p : ℚ × ℕ) => if p.2 ∈ ([] : List ℕ) then 0 else p.1) = Prod.fst := by
    funext p
    simp
  rw [indexed, hfun, List.map_fst_zip]
  rw [List.length_range]

theorem l1Unstructured_zero (w : List ℚ) : l1Unstructured w 0 = w := by
  rw [l1Unstructured, nparamsToPrune_zero]
  have hidx : pruneIdx w 0 = [] := by
    rw [pruneIdx, List.take_zero, List.map_nil]
  rw [hidx, indexed_map_cond_nil]

theorem randomUnstructured_zero (rng : List ℕ) (w : List ℚ) :
    randomUnstructured rng w 0 = w := by
  rw [randomUnstructured, nparamsToPrune_zero, List.take_zero, indexed_map_cond_nil]

/-- Claim C9 (confirmed): for every module with a weight tensor, applying
either supported pruning method with amount = 0 and then finalizing the
mask leaves the module — in particular its weight tensor — unchanged. -/
theorem C9_amount_zero_id (rng : List ℕ) (m : PModule) (w : List ℚ) (method : String)
    (hw : m.weight = some w)
    (hm : method = "l1_unstructured" ∨ method = "random_unstructured") :
    (apply_sparse_pruning rng m 0 method).map remove_pruning = .ok m := by
  obtain ⟨nm, wt⟩ := m
  have hw' : wt = some w := hw
  subst hw'
  rcases hm with rfl | rfl <;>
    simp [apply_sparse_pruning, Except.map, remove_pruning, l1Unstructured_zero,
      randomUnstructured_zero]

/-- Claim C9 witness: a concrete two-entry module under l1_unstructured. -/
theorem C9_amount_zero_id_witness :
    (⟨"fc1", some [1, -2]⟩ : PModule).weight = some [1, -2] ∧
    (("l1_unstructured" : String) = "l1_unstructured" ∨
      ("l1_unstructured" : String) = "random_unstructured") ∧
    (apply_sparse_pruning [] ⟨"fc1", some [1, -2]⟩ 0 "l1_unstructured").map remove_pruning =
      .ok ⟨"fc1", some [1, -2]⟩ :=
  ⟨rfl, Or.inl rfl,
    C9_amount_zero_id [] ⟨"fc1", some [1, -2]⟩ [1, -2] "l1_unstructured" rfl (Or.inl rfl)⟩

/-! ## Claim C6: evaluation accuracy bound and the empty batch source -/

theorem batchCorrect_le (b : EvalBatch) : batchCorrect b ≤ b.labels.length := by
  rw [batchCorrect]
  have h1 := List.countP_le_length (fun (p : ℤ × ℤ) => p.1 == p.2)
      (l := (batchPreds b).zip b.labels)
  rw [List.length_zip] at h1
  exact le_trans h1 (min_le_right _ _)

theorem evalFold_correct_le (lossFn : Option (EvalBatch → ℚ)) :
    ∀ (bs : List EvalBatch) (a : EvalAcc), a.correct ≤ a.samples →
      (bs.foldl (evalStep lossFn) a).correct ≤ (bs.foldl (evalStep lossFn) a).samples := by
  intro bs
  induction bs with
  | nil => intro a h; exact h
  | cons b t ih =>
    intro a h
    rw [List.foldl_cons]
    exact ih _ (Nat.add_le_add h (batchCorrect_le b))

/-- Claim C6, counterexample to the claim as stated: with a loss function
supplied and an empty batch source, evaluate_model computes
total_loss / num_batches with num_batches = 0 before accuracy is returned,
raising ZeroDivisionError instead of reporting accuracy 0. -/
theorem C6_counterexample :
    evaluate_model [] (some zeroLoss) = .error "ZeroDivisionError: float division by zero" :=
  rfl

/-- Claim C6 (corrected: the guarantee holds only when the call returns —
with a loss function supplied and an empty batch source the unguarded loss
average raises ZeroDivisionError first): whenever evaluate_model returns,
the returned accuracy lies in [0, 1], and on an empty batch source the
returned accuracy is exactly 0 (which happens precisely when no loss
function is supplied). -/
theorem C6_eval_accuracy (batches : List EvalBatch) (lossFn : Option (EvalBatch → ℚ))
    (l : Option ℚ) (a : ℚ) (h : evaluate_model batches lossFn = .ok (l, a)) :
    (0 ≤ a ∧ a ≤ 1) ∧ (batches = [] → a = 0) := by
  have hcs : (batches.foldl (evalStep lossFn) ⟨0, 0, 0, 0⟩).correct ≤
      (batches.foldl (evalStep lossFn) ⟨0, 0, 0, 0⟩).samples :=
    evalFold_correct_le lossFn batches ⟨0, 0, 0, 0⟩ (le_refl 0)
  have ha : a = (if 0 < (batches.foldl (evalStep lossFn) ⟨0, 0, 0, 0⟩).samples then
      ((batches.foldl (evalStep lossFn) ⟨0, 0, 0, 0⟩).correct : ℚ) /
        ((batches.foldl (evalStep lossFn) ⟨0, 0, 0, 0⟩).samples : ℚ) else 0) := by
    rcases lossFn with _ | f
    · rw [evaluate_model] at h
      injection h with h'
      exact ((Prod.mk.injEq _ _ _ _).mp h').2.symm
    · rw [evaluate_model] at h
      by_cases hnb : (batches.foldl (evalStep (some f)) ⟨0, 0, 0, 0⟩).numBatches = 0
      · rw [if_pos hnb] at h
        exact Except.noConfusion h
      · rw [if_neg hnb] at h
        injection h with h'
        exact ((Prod.mk.injEq _ _ _ _).mp h').2.symm
  constructor
  · rw [ha]
    by_cases hpos : 0 < (batches.foldl (evalStep lossFn) ⟨0, 0, 0, 0⟩).samples
    · rw [if_pos hpos]
      constructor
      · positivity
      · rw [div_le_one (by exact_mod_cast hpos)]
        exact_mod_cast hcs
    · rw [if_neg hpos]
      exact ⟨le_refl 0, zero_le_one⟩
  · intro hbe
    subst hbe
    rw [ha]
    rfl

/-- Claim C6 witness: one batch with a correct prediction and no loss
function returns accuracy 1 inside the bound, and the empty-source clause
holds vacuously. -/
theorem C6_eval_accuracy_witness :
    evaluate_model [⟨[[1, 2]], [1]⟩] none = .ok (none, 1) ∧
    ((0 ≤ (1 : ℚ) ∧ (1 : ℚ) ≤ 1) ∧
      (([⟨[[1, 2]], [1]⟩] : List EvalBatch) = [] → (1 : ℚ) = 0)) :=
  ⟨rfl, C6_eval_accuracy [⟨[[1, 2]], [1]⟩] none none 1 rfl⟩

end NanoQuant
